import Mathlib

/-!
Verification development for the loyverse_manager repository.

The Python modules under verification are shallowly embedded below:
* `src/services/audit.py` — the card payment audit builder and the report
  summary (`AuditService.create_card_payment_audit`,
  `AuditService.get_card_audit_report`, `AuditService.verify_cash_bag`);
* `src/models/audit.py` — the cash bag verification model
  (`CashBagVerification.create`, `CashBagAssignment.get_by_bag_id`);
* `src/bots/quicket.py` — the Quicket bot: browser lifecycle
  (`stop_browser`, the `driver` / `wait` properties), the hide workflow
  (`_locate_date_element`, `_click_eye_icon`, `_click_save_button`,
  `_hide_event_once`) and the `hide_event` retry supervisor.

Dates are modelled as natural numbers (any order-isomorphic encoding of
calendar dates), monetary amounts as integers, except in the report summary
where Python float division is modelled over the rationals.  Side effects
(clicks, browser restarts, sleeps) are modelled as explicit event traces, and
raised exceptions as `Except` errors.
-/

/-! ### Card payment audit builder (src/services/audit.py, lines 52-81) -/

/-- A daily payment row as returned by each source: a (date, amount) pair. -/
abbrev Payment := Nat × Int

/-- Embeds the dict comprehension and lookup
`d = {p["date"]: p["amount"] for p in ps}` followed by `d.get(date, 0)`:
the last entry for a date wins, and an absent date yields 0. -/
def dictGet (ps : List Payment) (d : Nat) : Int :=
  (ps.foldl (fun acc p => if p.1 = d then some p.2 else acc) none).getD 0

/-- Embeds `set(d.keys())` for the dict built from `ps`: the set of dates
occurring in `ps` (as a list, membership is what matters). -/
def dictKeys (ps : List Payment) : List Nat :=
  ps.map Prod.fst

/-- One row of the card payment audit, mirroring the record built on
lines 72-81 of src/services/audit.py. -/
structure CardPaymentAudit where
  audit_date : Nat
  paycloud_amount : Int
  loyverse_amount : Int
  aronium_amount : Int
  pos_total : Int
  variance : Int
deriving DecidableEq

/-- Embeds `sorted(set(paycloud) | set(loyverse) | set(aronium))`
(lines 57-61 and 65): the distinct dates of the three sources in ascending
order. -/
def allDates (pc lv ar : List Payment) : List Nat :=
  List.insertionSort (· ≤ ·) ((dictKeys pc ++ dictKeys lv ++ dictKeys ar).dedup)

/-- Embeds the record-building loop of `AuditService.create_card_payment_audit`
(lines 64-81): one record per date of the union, in ascending date order, with
`pos_total = loyverse + aronium` and `variance = paycloud - pos_total`. -/
def create_card_payment_audit (pc lv ar : List Payment) :
    List CardPaymentAudit :=
  (allDates pc lv ar).map (fun d =>
    let paycloud_amt := dictGet pc d
    let loyverse_amt := dictGet lv d
    let aronium_amt := dictGet ar d
    { audit_date := d
      paycloud_amount := paycloud_amt
      loyverse_amount := loyverse_amt
      aronium_amount := aronium_amt
      pos_total := loyverse_amt + aronium_amt
      variance := paycloud_amt - (loyverse_amt + aronium_amt) })

/-! ### Quicket bot retry supervisor (src/bots/quicket.py, lines 285-351) -/

/-- An observable side effect of the `hide_event` retry loop. -/
inductive RetryEvent where
  | attempt (k : Nat)
  | restartBrowser
  | sleep (seconds : Nat)
deriving DecidableEq

/-- The aggregated `RuntimeError(...) from last_error` raised on line 349
after the retry budget is exhausted: it wraps the cause of the final
per-attempt failure (or `none` when no attempt ever ran). -/
structure AggregatedError where
  cause : Option String
deriving DecidableEq

/-- Embeds the body of the retry loop of `hide_event` (lines 306-343).
`outcome k` is the result of the k-th attempt (`_login`;
`_navigate_to_event`; `_hide_event_once`): `none` means success and
`some e` a per-attempt failure with cause `e`.  On failure before the last
attempt the browser is restarted (restart failures are swallowed by the
source, lines 335-341, so restart is a single event here) and the loop
sleeps `2 * attempt` seconds.  `fuel` counts the remaining loop iterations;
the top-level call ties `fuel` to `max_retries` so the loop runs for
attempts `attempt, attempt+1, ..., max_retries`. -/
def hideEventLoop (outcome : Nat → Option String) (max_retries : Nat) :
    Nat → Nat → Option String → List RetryEvent × Except AggregatedError Unit
  | _attempt, 0, lastError => ([], .error ⟨lastError⟩)
  | attempt, fuel + 1, _lastError =>
    match outcome attempt with
    | none => ([.attempt attempt], .ok ())
    | some e =>
      if attempt < max_retries then
        let rest := hideEventLoop outcome max_retries (attempt + 1) fuel (some e)
        (.attempt attempt :: .restartBrowser :: .sleep (2 * attempt) :: rest.1,
          rest.2)
      else
        ([.attempt attempt], .error ⟨some e⟩)

/-- Embeds `QuicketBot.hide_event` (lines 285-351) with an explicit
`max_retries` (the source defaults it to 5 when `None`): attempts are
numbered from 1, and the trace of observable events is returned together
with the final outcome. -/
def hide_event (outcome : Nat → Option String) (max_retries : Nat) :
    List RetryEvent × Except AggregatedError Unit :=
  hideEventLoop outcome max_retries 1 max_retries none

/-- Recognises attempt events in a trace. -/
def isAttempt : RetryEvent → Bool
  | .attempt _ => true
  | _ => false

/-- Recognises browser-restart events in a trace. -/
def isRestart : RetryEvent → Bool
  | .restartBrowser => true
  | _ => false

/-- Extracts the duration of a backoff sleep event, if any. -/
def sleepSeconds : RetryEvent → Option Nat
  | .sleep s => some s
  | _ => none

/-- The trace produced when every attempt fails: `fuel` attempts starting at
number `a`, each non-final failure followed by a restart and a backoff sleep
of `2 * attempt` seconds, and nothing after the final attempt. -/
def failTrace : Nat → Nat → List RetryEvent
  | _a, 0 => []
  | a, 1 => [.attempt a]
  | a, fuel + 2 =>
    .attempt a :: .restartBrowser :: .sleep (2 * a) :: failTrace (a + 1) (fuel + 1)

/-- The last event of a trace, if the trace is nonempty. -/
def lastEvent : List RetryEvent → Option RetryEvent
  | [] => none
  | [e] => some e
  | _ :: e :: rest => lastEvent (e :: rest)

/-! ### Hide workflow (src/bots/quicket.py, lines 176-283) -/

/-- One schedule row inside an expanded accordion panel, as the DOM exposes
it to the bot: its start date and which of the hide / unhide icons are
present for it. -/
structure DateRow where
  rowDate : Nat
  hasUnhideIcon : Bool
  hasHideIcon : Bool
deriving DecidableEq

/-- The content panel behind one accordion header: its schedule rows. -/
structure Panel where
  rows : List DateRow
deriving DecidableEq

/-- A UI action performed by the hide workflow. -/
inductive UiAction where
  | expandHeader
  | clickEye
  | clickSave
  | waitSaveConfirmation
deriving DecidableEq

/-- Recognises clicks on the eye toggle. -/
def isClickEye : UiAction → Bool
  | .clickEye => true
  | _ => false

/-- Recognises clicks on the SAVE button. -/
def isClickSave : UiAction → Bool
  | .clickSave => true
  | _ => false

/-- Recognises waits for the save confirmation message. -/
def isWaitSaveConfirmation : UiAction → Bool
  | .waitSaveConfirmation => true
  | _ => false

/-- Embeds `_locate_date_element` (lines 176-191): the first row of the
panel whose date equals the target, if any. -/
def locate_date_element (p : Panel) (target : Nat) : Option DateRow :=
  p.rows.find? (fun r => r.rowDate == target)

/-- Embeds `_click_eye_icon` (lines 193-222): when the unhide icon for the
row is present the date is already hidden, nothing is clicked, and `false`
is returned; otherwise the hide icon is clicked and `true` is returned;
when neither icon exists a RuntimeError is raised. -/
def click_eye_icon (r : DateRow) : List UiAction × Except String Bool :=
  if r.hasUnhideIcon then ([], .ok false)
  else if r.hasHideIcon then ([.clickEye], .ok true)
  else ([], .error ("Neither hide nor unhide icon found"))

/-- Embeds `_click_save_button` (lines 224-250): SAVE is clicked and the bot
waits for the success message; `saveConfirms` says whether the message
appears within the wait timeout. -/
def click_save_button (saveConfirms : Bool) : List UiAction × Except String Unit :=
  if saveConfirms then
    ([.clickSave, .waitSaveConfirmation], .ok ())
  else
    ([.clickSave, .waitSaveConfirmation],
      .error ("Failed to detect success message after clicking SAVE."))

/-- Embeds `_hide_event_once` (lines 252-283): expand each accordion header
in turn and look for the target date in its panel; when found, toggle the
eye icon and, only when an icon was actually clicked, press SAVE; raise
when no panel holds the target date. -/
def hide_event_once (panels : List Panel) (saveConfirms : Bool) (target : Nat) :
    List UiAction × Except String Unit :=
  match panels with
  | [] => ([], .error ("Target date " ++ toString target ++ " not found in any headers."))
  | p :: rest =>
    match locate_date_element p target with
    | some row =>
      let eye := click_eye_icon row
      match eye.2 with
      | .error e => (UiAction.expandHeader :: eye.1, .error e)
      | .ok true =>
        let save := click_save_button saveConfirms
        (UiAction.expandHeader :: (eye.1 ++ save.1), save.2)
      | .ok false => (UiAction.expandHeader :: eye.1, .ok ())
    | none =>
      let restRun := hide_event_once rest saveConfirms target
      (UiAction.expandHeader :: restRun.1, restRun.2)

/-- The date row the workflow locates: the first matching row of the first
panel that contains the target date. -/
def locate_in_panels (panels : List Panel) (target : Nat) : Option DateRow :=
  match panels with
  | [] => none
  | p :: rest =>
    match locate_date_element p target with
    | some row => some row
    | none => locate_in_panels rest target

/-! ### Browser session lifecycle (src/bots/quicket.py, lines 20-117) -/

/-- The `_driver` and `_wait` handles of `QuicketBot`; `none` models Python
`None` (the not-started state).  The payloads stand for the live Selenium
objects. -/
structure BotHandles where
  driver : Option Nat
  wait : Option Nat
deriving DecidableEq

/-- Embeds `stop_browser` (lines 90-96).  `quitRaises` is `some e` when
`self._driver.quit()` would raise `e`; the source has no exception handler
there, so a raising `quit()` propagates before `self._driver = None` and
`self._wait = None` run, leaving both handles untouched. -/
def stop_browser (s : BotHandles) (quitRaises : Option String) :
    BotHandles × Option String :=
  match s.driver with
  | none => ({ s with wait := none }, none)
  | some _ =>
    match quitRaises with
    | none => ({ driver := none, wait := none }, none)
    | some e => (s, some e)

/-- Embeds the `driver` property (lines 23-28): raises
"Browser not started" when the handle is `None`. -/
def driver_property (s : BotHandles) : Except String Nat :=
  match s.driver with
  | none => .error ("Browser not started")
  | some d => .ok d

/-- Embeds the `wait` property (lines 30-35): raises
"Browser not started" when the handle is `None`. -/
def wait_property (s : BotHandles) : Except String Nat :=
  match s.wait with
  | none => .error ("Browser not started")
  | some w => .ok w

/-- Embeds `_navigate_to_event` (lines 160-163): it goes through the
`driver` property (`self.driver.get(url)`), so it fails with the
"not started" error before navigating when the handle is cleared; on a
started session it requests the event URL. -/
def navigate_to_event (s : BotHandles) (event_id : String) : Except String String :=
  match driver_property s with
  | .error e => .error e
  | .ok _ =>
    .ok ("https://www.quicket.co.za/app/#/account/event/" ++ event_id ++ "/details")

/-! ### Cash bag verification (src/models/audit.py, src/services/audit.py) -/

/-- A persisted cash bag assignment row (the fields the verification
workflow reads). -/
structure CashBagAssignment where
  bag_id : String
  assignment_date : Nat
  source_system : String
  source_identifier : String
  expected_amount : Int
deriving DecidableEq

/-- A persisted cash bag verification row. -/
structure CashBagVerification where
  bag_id : String
  counted_amount : Int
  counted_by : String
  variance : Int
  notes : Option String
deriving DecidableEq

/-- The audit tables touched by the cash bag workflow. -/
structure AuditDb where
  assignments : List CashBagAssignment
  verifications : List CashBagVerification
deriving DecidableEq

/-- Embeds `CashBagAssignment.get_by_bag_id` (lines 287-294 of
src/models/audit.py): the first assignment row with the given bag id. -/
def get_by_bag_id (db : AuditDb) (bag_id : String) : Option CashBagAssignment :=
  db.assignments.find? (fun a => a.bag_id == bag_id)

/-- Embeds `CashBagVerification.create` (lines 375-409 of
src/models/audit.py): look up the assignment for the bag, raise
`ValueError("No cash bag assignment found for bag_id: ...")` when absent,
otherwise compute `variance = counted_amount - assignment.expected_amount`
and insert the verification row. -/
def verification_create (db : AuditDb) (bag_id : String) (counted_amount : Int)
    (counted_by : String) (notes : Option String) :
    AuditDb × Except String CashBagVerification :=
  match get_by_bag_id db bag_id with
  | none => (db, .error ("No cash bag assignment found for bag_id: " ++ bag_id))
  | some assignment =>
    let v : CashBagVerification :=
      { bag_id := bag_id
        counted_amount := counted_amount
        counted_by := counted_by
        variance := counted_amount - assignment.expected_amount
        notes := notes }
    ({ db with verifications := db.verifications ++ [v] }, .ok v)

/-- Embeds `AuditService.verify_cash_bag` (lines 183-208 of
src/services/audit.py), which delegates to `CashBagVerification.create`. -/
def verify_cash_bag (db : AuditDb) (bag_id : String) (counted_amount : Int)
    (counted_by : String) (notes : Option String) :
    AuditDb × Except String CashBagVerification :=
  verification_create db bag_id counted_amount counted_by notes

/-! ### Card audit report summary (src/services/audit.py, lines 210-253) -/

/-- The absolute variances `[abs(float(a.variance)) for a in audits]`, over
the rationals. -/
def absVariances (audits : List CardPaymentAudit) : List Rat :=
  audits.map (fun a => |(a.variance : Rat)|)

/-- Embeds `AuditService.get_card_audit_report` applied to the records
matching the query (lines 228-253): the summary is modelled as an
association list standing for the Python dict, paired with the returned
records.  When no record matches, the summary has exactly the four keys of
lines 230-235; otherwise it has the five keys of lines 243-249, including
`average_variance`. -/
def get_card_audit_report (audits : List CardPaymentAudit) :
    List (String × Rat) × List CardPaymentAudit :=
  if audits.isEmpty then
    ([("total_days", 0), ("days_with_variance", 0),
      ("total_variance", 0), ("largest_variance", 0)], [])
  else
    let variances := absVariances audits
    ([("total_days", (audits.length : Rat)),
      ("days_with_variance", ((variances.filter (fun v => v > 1/100)).length : Rat)),
      ("total_variance", variances.sum),
      ("largest_variance", (variances.max?.getD 0)),
      ("average_variance", variances.sum / (variances.length : Rat))],
      audits)

/-! ## Theorems -/

/-- C1: For every date in the constructed card payment audit, the produced
record satisfies `pos_total = loyverse_amount + aronium_amount` and
`variance = paycloud_amount - pos_total`. -/
theorem audit_record_arithmetic (pc lv ar : List Payment) (r : CardPaymentAudit)
    (hr : r ∈ create_card_payment_audit pc lv ar) :
    r.pos_total = r.loyverse_amount + r.aronium_amount ∧
    r.variance = r.paycloud_amount - r.pos_total := by
  simp only [create_card_payment_audit, List.mem_map] at hr
  obtain ⟨d, _, rfl⟩ := hr
  exact ⟨rfl, rfl⟩

/-- Witness for C1 at terminal=100, loyverse=40, aronium=30 on date 5: the
produced record is the one with `pos_total = 70` and `variance = 30`, and
the invariant holds at it. -/
theorem audit_record_arithmetic_witness :
    create_card_payment_audit [(5, 100)] [(5, 40)] [(5, 30)] =
      [⟨5, 100, 40, 30, 70, 30⟩] ∧
    ((⟨5, 100, 40, 30, 70, 30⟩ : CardPaymentAudit).pos_total =
        (⟨5, 100, 40, 30, 70, 30⟩ : CardPaymentAudit).loyverse_amount +
          (⟨5, 100, 40, 30, 70, 30⟩ : CardPaymentAudit).aronium_amount ∧
      (⟨5, 100, 40, 30, 70, 30⟩ : CardPaymentAudit).variance =
        (⟨5, 100, 40, 30, 70, 30⟩ : CardPaymentAudit).paycloud_amount -
          (⟨5, 100, 40, 30, 70, 30⟩ : CardPaymentAudit).pos_total) :=
  ⟨by decide,
    audit_record_arithmetic [(5, 100)] [(5, 40)] [(5, 30)]
      ⟨5, 100, 40, 30, 70, 30⟩ (by decide)⟩

/-- C2: `create_card_payment_audit` emits exactly one record per date in the
union of the dates of the three sources, in ascending date order (the emitted
date list is the strictly sorted union), and a source missing a date
contributes amount 0; concretely, sources with date sets {1,2}, {2,3}, {}
yield exactly the dates [1,2,3] with the missing amounts 0. -/
theorem audit_dates_union (pc lv ar : List Payment) :
    ((create_card_payment_audit pc lv ar).map CardPaymentAudit.audit_date =
        allDates pc lv ar) ∧
    List.Sorted (· < ·) (allDates pc lv ar) ∧
    (∀ d, d ∈ allDates pc lv ar ↔
        d ∈ dictKeys pc ∨ d ∈ dictKeys lv ∨ d ∈ dictKeys ar) ∧
    create_card_payment_audit [(1, 10), (2, 20)] [(2, 5), (3, 7)] [] =
      [⟨1, 10, 0, 0, 0, 10⟩, ⟨2, 20, 5, 0, 5, 15⟩, ⟨3, 0, 7, 0, 7, -7⟩] := by
  refine ⟨?_, ?_, ?_, by decide⟩
  · simp only [create_card_payment_audit, List.map_map]
    exact List.map_id _
  · have hsorted :
        List.Sorted (· ≤ ·) (allDates pc lv ar) :=
      List.sorted_insertionSort (· ≤ ·) _
    have hnodup : (allDates pc lv ar).Nodup :=
      ((List.perm_insertionSort (· ≤ ·) _).nodup_iff).mpr (List.nodup_dedup _)
    exact hsorted.lt_of_le hnodup
  · intro d
    unfold allDates
    rw [(List.perm_insertionSort (· ≤ ·) _).mem_iff, List.mem_dedup,
      List.mem_append, List.mem_append]
    tauto

/-- Helper: when every attempt fails, the retry loop with `fuel` remaining
iterations at attempt number `a` (with `a + fuel = n + 1`) produces the
interleaved failure trace and the aggregated error wrapping the final
attempt's cause. -/
theorem hideEventLoop_all_fail (err : Nat → String) (n : Nat) :
    ∀ fuel a le, a + fuel = n + 1 → 1 ≤ fuel →
      hideEventLoop (fun k => some (err k)) n a fuel le =
        (failTrace a fuel, .error ⟨some (err n)⟩) := by
  intro fuel
  induction fuel with
  | zero => intro a le _ hfuel; omega
  | succ f IH =>
    intro a le hsum _
    cases f with
    | zero =>
      have ha : a = n := by omega
      subst ha
      simp [hideEventLoop, failTrace]
    | succ g =>
      have hlt : a < n := by omega
      have hrec := IH (a + 1) (some (err a)) (by omega) (by omega)
      have hstep : hideEventLoop (fun k => some (err k)) n a (g + 1 + 1) le =
          if a < n then
            (.attempt a :: .restartBrowser :: .sleep (2 * a) ::
                (hideEventLoop (fun k => some (err k)) n (a + 1) (g + 1)
                  (some (err a))).1,
              (hideEventLoop (fun k => some (err k)) n (a + 1) (g + 1)
                (some (err a))).2)
          else ([.attempt a], .error ⟨some (err a)⟩) := rfl
      rw [hstep, if_pos hlt, hrec]
      rfl

/-- Helper: a failure trace of at least one attempt starts with its first
attempt event. -/
theorem failTrace_cons (f a : Nat) :
    ∃ t, failTrace a (f + 1) = .attempt a :: t := by
  cases f with
  | zero => exact ⟨[], rfl⟩
  | succ g => exact ⟨_, rfl⟩

/-- Helper: the failure trace of `fuel` attempts holds exactly `fuel`
attempt events. -/
theorem failTrace_count_attempts :
    ∀ fuel a, (failTrace a fuel).countP isAttempt = fuel := by
  intro fuel
  induction fuel with
  | zero => intro a; rfl
  | succ f IH =>
    intro a
    cases f with
    | zero => rfl
    | succ g =>
      simp only [failTrace, List.countP_cons, IH (a + 1)]
      simp [isAttempt]

/-- Helper: the failure trace of `fuel` attempts holds exactly `fuel - 1`
browser restarts. -/
theorem failTrace_count_restarts :
    ∀ fuel a, (failTrace a fuel).countP isRestart = fuel - 1 := by
  intro fuel
  induction fuel with
  | zero => intro a; rfl
  | succ f IH =>
    intro a
    cases f with
    | zero => rfl
    | succ g =>
      simp only [failTrace, List.countP_cons, IH (a + 1)]
      simp [isRestart]

/-- Helper: the backoff sleeps of the failure trace of `fuel` attempts
starting at attempt `a` are `2*a, 2*(a+1), ...`, one per non-final
attempt. -/
theorem failTrace_sleeps :
    ∀ fuel a, (failTrace a fuel).filterMap sleepSeconds =
      (List.range' a (fuel - 1)).map (fun k => 2 * k) := by
  intro fuel
  induction fuel with
  | zero => intro a; rfl
  | succ f IH =>
    intro a
    cases f with
    | zero => rfl
    | succ g =>
      simp only [failTrace, List.filterMap_cons, IH (a + 1)]
      simp [sleepSeconds, List.range']

/-- Helper: the last event of the failure trace of at least one attempt is
its final attempt. -/
theorem failTrace_last :
    ∀ fuel a, 1 ≤ fuel →
      lastEvent (failTrace a fuel) = some (.attempt (a + fuel - 1)) := by
  intro fuel
  induction fuel with
  | zero => intro a h; omega
  | succ f IH =>
    intro a _
    cases f with
    | zero => rfl
    | succ g =>
      obtain ⟨t, ht⟩ := failTrace_cons g (a + 1)
      have hrec := IH (a + 1) (by omega)
      calc lastEvent (failTrace a (g + 2))
          = lastEvent (failTrace (a + 1) (g + 1)) := by
            rw [show failTrace a (g + 2) =
              .attempt a :: .restartBrowser :: .sleep (2 * a) ::
                failTrace (a + 1) (g + 1) from rfl, ht]
            rfl
        _ = some (.attempt (a + 1 + (g + 1) - 1)) := hrec
        _ = some (.attempt (a + (g + 2) - 1)) := by
            have harith : a + 1 + (g + 1) - 1 = a + (g + 2) - 1 := by omega
            rw [harith]

/-- C3: for every `max_retries = n ≥ 1`, if every per-attempt hide procedure
fails, `hide_event` performs exactly `n` attempts, restarts the session
exactly `n - 1` times — strictly between attempts, as the interleaved trace
shows — and raises a single aggregated error wrapping the final attempt's
cause. -/
theorem hide_event_retry_exhaustion (err : Nat → String) (n : Nat)
    (h : 1 ≤ n) :
    (hide_event (fun k => some (err k)) n).1 = failTrace 1 n ∧
    (hide_event (fun k => some (err k)) n).1.countP isAttempt = n ∧
    (hide_event (fun k => some (err k)) n).1.countP isRestart = n - 1 ∧
    (hide_event (fun k => some (err k)) n).2 = .error ⟨some (err n)⟩ := by
  have hloop := hideEventLoop_all_fail err n n 1 none (by omega) h
  unfold hide_event
  rw [hloop]
  exact ⟨rfl, failTrace_count_attempts n 1, failTrace_count_restarts n 1, rfl⟩

/-- Witness for C3 at `max_retries = 3` with a constantly failing attempt:
3 attempts, 2 restarts, and the aggregated error wraps the final cause. -/
theorem hide_event_retry_exhaustion_witness :
    (hide_event (fun _ => some "boom") 3).1 = failTrace 1 3 ∧
    (hide_event (fun _ => some "boom") 3).1.countP isAttempt = 3 ∧
    (hide_event (fun _ => some "boom") 3).1.countP isRestart = 2 ∧
    (hide_event (fun _ => some "boom") 3).2 = .error ⟨some "boom"⟩ :=
  hide_event_retry_exhaustion (fun _ => "boom") 3 (by decide)

/-- C4: for every `max_retries = n ≥ 1`, when every attempt fails, the
backoff sleeps of the run are exactly `2, 4, ..., 2*(n-1)` in order (one
after each failed non-final attempt), and the trace ends with the final
attempt — no backoff sleep occurs after it. -/
theorem hide_event_backoff_sequence (err : Nat → String) (n : Nat)
    (h : 1 ≤ n) :
    (hide_event (fun k => some (err k)) n).1.filterMap sleepSeconds =
      (List.range' 1 (n - 1)).map (fun k => 2 * k) ∧
    lastEvent (hide_event (fun k => some (err k)) n).1 =
      some (.attempt n) := by
  have hloop := hideEventLoop_all_fail err n n 1 none (by omega) h
  unfold hide_event
  rw [hloop]
  refine ⟨failTrace_sleeps n 1, ?_⟩
  rw [failTrace_last n 1 h]
  have hn : 1 + n - 1 = n := by omega
  rw [hn]

/-- Witness for C4 at `max_retries = 4` with a constantly failing attempt:
the backoff sleeps are `[2, 4, 6]` and the last event is attempt 4. -/
theorem hide_event_backoff_sequence_witness :
    ((hide_event (fun _ => some "x") 4).1.filterMap sleepSeconds = [2, 4, 6] ∧
      lastEvent (hide_event (fun _ => some "x") 4).1 =
        some (.attempt 4)) :=
  ⟨((hide_event_backoff_sequence (fun _ => "x") 4 (by decide)).1).trans
      (by decide),
    (hide_event_backoff_sequence (fun _ => "x") 4 (by decide)).2⟩

/-- C5: the hide workflow is idempotent on an already-hidden date: whenever
the located date row exposes the unhide control, `_hide_event_once` performs
zero clicks on the eye toggle, never clicks SAVE, never waits for the save
confirmation, and still succeeds. -/
theorem hide_event_once_idempotent (panels : List Panel) (saveConfirms : Bool)
    (target : Nat) (row : DateRow)
    (hloc : locate_in_panels panels target = some row)
    (hhidden : row.hasUnhideIcon = true) :
    (hide_event_once panels saveConfirms target).2 = .ok () ∧
    (hide_event_once panels saveConfirms target).1.countP isClickEye = 0 ∧
    (hide_event_once panels saveConfirms target).1.countP isClickSave = 0 ∧
    (hide_event_once panels saveConfirms target).1.countP
      isWaitSaveConfirmation = 0 := by
  induction panels with
  | nil => simp [locate_in_panels] at hloc
  | cons p rest IH =>
    unfold locate_in_panels at hloc
    unfold hide_event_once
    cases hfind : locate_date_element p target with
    | some found =>
      rw [hfind] at hloc
      have hrow : found = row := by simpa using hloc
      subst hrow
      simp [click_eye_icon, hhidden, isClickEye, isClickSave,
        isWaitSaveConfirmation]
    | none =>
      rw [hfind] at hloc
      have hrec := IH (by simpa using hloc)
      simpa [isClickEye, isClickSave, isWaitSaveConfirmation] using hrec

/-- Witness for C5: a single panel whose only row carries the target date
and exposes the unhide control; the run succeeds with no toggle click, no
SAVE click and no confirmation wait. -/
theorem hide_event_once_idempotent_witness :
    (hide_event_once [⟨[⟨7, true, true⟩]⟩] true 7).2 = .ok () ∧
    (hide_event_once [⟨[⟨7, true, true⟩]⟩] true 7).1.countP isClickEye = 0 ∧
    (hide_event_once [⟨[⟨7, true, true⟩]⟩] true 7).1.countP isClickSave = 0 ∧
    (hide_event_once [⟨[⟨7, true, true⟩]⟩] true 7).1.countP
      isWaitSaveConfirmation = 0 :=
  hide_event_once_idempotent [⟨[⟨7, true, true⟩]⟩] true 7 ⟨7, true, true⟩
    (by decide) (by decide)

/-- Counterexample to C6 as stated: when `quit()` raises, `stop_browser`
propagates the exception before the assignment `self._driver = None` runs,
so the driver handle is NOT cleared. -/
theorem stop_browser_counterexample :
    (stop_browser ⟨some 1, some 2⟩ (some "boom")).1.driver = some 1 ∧
    (stop_browser ⟨some 1, some 2⟩ (some "boom")).2 = some "boom" := by
  exact ⟨rfl, rfl⟩

/-- C6 (amended): `stop_browser` is a no-op on the driver handle when the
browser is already stopped (it only clears the wait handle and raises
nothing), and clears both handles when termination succeeds; but when
terminating the browser raises, the exception propagates and both handles
are left unchanged — the driver handle is NOT cleared in that case. -/
theorem stop_browser_spec (s : BotHandles) (e : Option String) :
    (s.driver = none → stop_browser s e = ({ s with wait := none }, none)) ∧
    (∀ d, s.driver = some d → e = none →
      stop_browser s e = (⟨none, none⟩, none)) ∧
    (∀ d msg, s.driver = some d → e = some msg →
      stop_browser s e = (s, some msg)) := by
  refine ⟨?_, ?_, ?_⟩
  · intro hnone
    obtain ⟨d, w⟩ := s
    cases hnone
    rfl
  · intro d hd he
    obtain ⟨d', w⟩ := s
    cases hd
    cases he
    rfl
  · intro d msg hd he
    obtain ⟨d', w⟩ := s
    cases hd
    cases he
    rfl

/-- Witness for C6 (amended), covering all three cases at concrete states:
already stopped, successful termination, and raising termination. -/
theorem stop_browser_spec_witness :
    stop_browser ⟨none, some 2⟩ none = (⟨none, none⟩, none) ∧
    stop_browser ⟨some 1, some 2⟩ none = (⟨none, none⟩, none) ∧
    stop_browser ⟨some 1, some 2⟩ (some "boom") =
      (⟨some 1, some 2⟩, some "boom") :=
  ⟨(stop_browser_spec ⟨none, some 2⟩ none).1 rfl,
    (stop_browser_spec ⟨some 1, some 2⟩ none).2.1 1 rfl rfl,
    (stop_browser_spec ⟨some 1, some 2⟩ (some "boom")).2.2 1 "boom" rfl rfl⟩

/-- C7: on a controller whose handles are cleared (before `start()` has
succeeded, or after they were cleared), accessing the driver or wait
primitives, or the navigation primitive built on them, fails with the
"Browser not started" error rather than proceeding. -/
theorem not_started_access (s : BotHandles) (event_id : String)
    (hd : s.driver = none) (hw : s.wait = none) :
    driver_property s = .error ("Browser not started") ∧
    wait_property s = .error ("Browser not started") ∧
    navigate_to_event s event_id = .error ("Browser not started") := by
  obtain ⟨d, w⟩ := s
  cases hd
  cases hw
  exact ⟨rfl, rfl, rfl⟩

/-- Witness for C7 at the fresh (never-started) state. -/
theorem not_started_access_witness :
    driver_property ⟨none, none⟩ = .error ("Browser not started") ∧
    wait_property ⟨none, none⟩ = .error ("Browser not started") ∧
    navigate_to_event ⟨none, none⟩ "12345" =
      .error ("Browser not started") :=
  not_started_access ⟨none, none⟩ "12345" rfl rfl

/-- C8: verifying a bag id with no cash bag assignment fails with the
"not found" error and inserts nothing — the database is unchanged. -/
theorem verify_unknown_bag (db : AuditDb) (bag_id : String)
    (counted_amount : Int) (counted_by : String) (notes : Option String)
    (habsent : get_by_bag_id db bag_id = none) :
    (verify_cash_bag db bag_id counted_amount counted_by notes).2 =
      .error ("No cash bag assignment found for bag_id: " ++ bag_id) ∧
    (verify_cash_bag db bag_id counted_amount counted_by notes).1 = db := by
  unfold verify_cash_bag verification_create
  rw [habsent]
  exact ⟨rfl, rfl⟩

/-- Witness for C8: `verify_cash_bag "BAG-NOTREAL" ...` against a database
holding only an unrelated bag fails with "not found" and leaves the
database unchanged. -/
theorem verify_unknown_bag_witness :
    (verify_cash_bag ⟨[⟨"BAG-K7M3P9XQ", 1, "aronium", "daily-total", 500⟩], []⟩
        "BAG-NOTREAL" 480 "alice" none).2 =
      .error ("No cash bag assignment found for bag_id: " ++ "BAG-NOTREAL") ∧
    (verify_cash_bag ⟨[⟨"BAG-K7M3P9XQ", 1, "aronium", "daily-total", 500⟩], []⟩
        "BAG-NOTREAL" 480 "alice" none).1 =
      ⟨[⟨"BAG-K7M3P9XQ", 1, "aronium", "daily-total", 500⟩], []⟩ :=
  verify_unknown_bag ⟨[⟨"BAG-K7M3P9XQ", 1, "aronium", "daily-total", 500⟩], []⟩
    "BAG-NOTREAL" 480 "alice" none (by decide)

/-- C9: a verification created against an existing assignment stores
`variance = counted_amount - assignment.expected_amount`, and appends
exactly that row to the verifications table. -/
theorem verify_variance (db : AuditDb) (bag_id : String)
    (counted_amount : Int) (counted_by : String) (notes : Option String)
    (a : CashBagAssignment)
    (hfound : get_by_bag_id db bag_id = some a) :
    (verify_cash_bag db bag_id counted_amount counted_by notes).2 =
      .ok ⟨bag_id, counted_amount, counted_by,
        counted_amount - a.expected_amount, notes⟩ ∧
    (verify_cash_bag db bag_id counted_amount counted_by notes).1 =
      { db with verifications := db.verifications ++
          [⟨bag_id, counted_amount, counted_by,
            counted_amount - a.expected_amount, notes⟩] } := by
  unfold verify_cash_bag verification_create
  rw [hfound]
  exact ⟨rfl, rfl⟩

/-- Witness for C9: an assignment with `expected_amount = 500` verified with
`counted_amount = 480` yields `variance = -20`. -/
theorem verify_variance_witness :
    ((verify_cash_bag ⟨[⟨"BAG-K7M3P9XQ", 1, "aronium", "daily-total", 500⟩], []⟩
        "BAG-K7M3P9XQ" 480 "alice" none).2 =
      .ok ⟨"BAG-K7M3P9XQ", 480, "alice", -20, none⟩) ∧
    ((verify_cash_bag ⟨[⟨"BAG-K7M3P9XQ", 1, "aronium", "daily-total", 500⟩], []⟩
        "BAG-K7M3P9XQ" 480 "alice" none).2 =
      .ok ⟨"BAG-K7M3P9XQ", 480, "alice", 480 - 500, none⟩) :=
  ⟨by rfl,
    (verify_variance ⟨[⟨"BAG-K7M3P9XQ", 1, "aronium", "daily-total", 500⟩], []⟩
      "BAG-K7M3P9XQ" 480 "alice" none
      ⟨"BAG-K7M3P9XQ", 1, "aronium", "daily-total", 500⟩ (by decide)).1⟩

/-- C10: the report summary has an inconsistent shape at the empty boundary:
with no matching audit record the summary omits the `average_variance` key
entirely, while with at least one record it contains `average_variance`,
bound to the average of the absolute variances. -/
theorem report_summary_shape (audits : List CardPaymentAudit) :
    (audits = [] →
      ((get_card_audit_report audits).1.lookup "average_variance" = none)) ∧
    (audits ≠ [] →
      ((get_card_audit_report audits).1.lookup "average_variance" =
        some ((absVariances audits).sum / ((absVariances audits).length : Rat)))) := by
  constructor
  · intro hempty
    subst hempty
    rfl
  · intro hnonempty
    unfold get_card_audit_report
    rw [if_neg (by simpa using hnonempty)]
    rfl

/-- Witness for C10: the empty query yields a summary without
`average_variance`; a one-record query yields a summary carrying it. -/
theorem report_summary_shape_witness :
    ((get_card_audit_report []).1.lookup "average_variance" = none) ∧
    ((get_card_audit_report [⟨1, 100, 40, 30, 70, 30⟩]).1.lookup
        "average_variance" =
      some ((absVariances [⟨1, 100, 40, 30, 70, 30⟩]).sum /
        ((absVariances [⟨1, 100, 40, 30, 70, 30⟩]).length : Rat))) :=
  ⟨(report_summary_shape []).1 rfl,
    (report_summary_shape [⟨1, 100, 40, 30, 70, 30⟩]).2 (by simp)⟩
